import Mathlib

set_option maxRecDepth 4000

/-
Shallow embedding of the NES emulator (src/cpu.rs, src/instructions.rs,
src/ppu/mod.rs, src/ppu.rs, src/render/mod.rs).

Conventions:
* Machine integers (u8 / u16) are modelled as Nat with explicit reductions
  mod 256 / mod 65536 exactly where the Rust code wraps (`wrapping_add`,
  `as u8` casts, shifts on u8, `+` on u16 in release mode).
* CPU memory is abstracted from the Bus as a total byte function
  `Nat → Nat`; `mem_read` reduces the address mod 65536 and the stored
  value mod 256, so reads are always bytes.  The CPU-level claims are
  independent of the bus address decoding.
* Fallible steps (unrecognized opcode aborts, BRK terminating the run
  loop) are modelled by the `StepResult` sum type.
-/

inductive AddressingMode where
  | Immediate
  | ZeroPage
  | ZeroPageX
  | ZeroPageY
  | Absolute
  | AbsoluteX
  | AbsoluteY
  | IndirectX
  | IndirectY
  | Relative
  | Implied

/- StatFlags bit constants (cpu.rs `bitflags!` block). -/

def StatFlags.NEGATIVE : Nat := 0b10000000

def StatFlags.OVERFLOW : Nat := 0b01000000

def StatFlags.BREAK2 : Nat := 0b00100000

def StatFlags.BREAK : Nat := 0b00010000

def StatFlags.DECIMAL : Nat := 0b00001000

def StatFlags.INTERRUPT_DISABLE : Nat := 0b00000100

def StatFlags.ZERO : Nat := 0b00000010

def StatFlags.CARRY : Nat := 0b00000001

/-- bitflags `set(flag, b)` on a u8 bit set: insert when `b`, remove otherwise
(`remove` clears the flag bits; u8 complement of `f` is `255 ^^^ f`). -/
def flag_set_bits (bits f : Nat) (b : Bool) : Nat :=
  if b then bits ||| f else bits &&& (255 ^^^ f)

def STACK_BASE : Nat := 0x0100

def STACK_RESET : Nat := 0xfd

/-- CPU state (cpu.rs `struct Cpu`); the `bus` field is replaced by the
abstract byte memory `mem`. -/
structure Cpu where
  pc : Nat
  sp : Nat
  a : Nat
  x : Nat
  y : Nat
  stat : Nat
  mem : Nat → Nat

/-- bitflags `contains`: all bits of `f` are set. -/
def Cpu.contains_flag (s : Cpu) (f : Nat) : Bool :=
  s.stat &&& f == f

def Cpu.insert_flag (s : Cpu) (f : Nat) : Cpu :=
  { s with stat := s.stat ||| f }

def Cpu.remove_flag (s : Cpu) (f : Nat) : Cpu :=
  { s with stat := s.stat &&& (255 ^^^ f) }

def Cpu.set_flag (s : Cpu) (f : Nat) (b : Bool) : Cpu :=
  { s with stat := flag_set_bits s.stat f b }

def Cpu.mem_read (s : Cpu) (addr : Nat) : Nat :=
  s.mem (addr % 65536) % 256

def Cpu.mem_write (s : Cpu) (addr data : Nat) : Cpu :=
  { s with mem := fun a => if a = addr % 65536 then data % 256 else s.mem a }

/-- mem_read_u16: little-endian 16-bit read (memory.rs `mem_read_u16`). -/
def Cpu.mem_read_u16 (s : Cpu) (pos : Nat) : Nat :=
  let low := s.mem_read pos
  let high := s.mem_read (pos + 1)
  (high <<< 8) ||| low

/-- u8 wrapping addition (`wrapping_add`). -/
def wrap8_add (v w : Nat) : Nat :=
  (v % 256 + w % 256) % 256

/-- u8 wrapping subtraction (`wrapping_sub`). -/
def wrap8_sub (v w : Nat) : Nat :=
  (v % 256 + 256 - w % 256) % 256

/-- cpu.rs `Cpu::get_operand_address`.  The source panics on
Implied/Relative; those arms are never reached from the dispatch of a
recognized opcode, and are mapped to 0 here. -/
def Cpu.get_operand_address (s : Cpu) (mode : AddressingMode) : Nat :=
  match mode with
  | .Immediate => s.pc
  | .ZeroPage => s.mem_read s.pc
  | .Absolute => s.mem_read_u16 s.pc
  | .ZeroPageX =>
      let base := s.mem_read s.pc
      wrap8_add base s.x
  | .ZeroPageY =>
      let base := s.mem_read s.pc
      wrap8_add base s.y
  | .AbsoluteX =>
      let base := s.mem_read_u16 s.pc
      (base + s.x % 256) % 65536
  | .AbsoluteY =>
      let base := s.mem_read_u16 s.pc
      (base + s.y % 256) % 65536
  | .IndirectX =>
      let base := s.mem_read s.pc
      let ptr := wrap8_add base s.x
      let low := s.mem_read ptr
      let high := s.mem_read (wrap8_add ptr 1)
      (high <<< 8) ||| low
  | .IndirectY =>
      let base := s.mem_read s.pc
      let ptr := wrap8_add base s.y
      let low := s.mem_read ptr
      let high := s.mem_read (wrap8_add ptr 1)
      (high <<< 8) ||| low
  | .Implied | .Relative => 0

def Cpu.set_zero (s : Cpu) : Cpu := s.insert_flag StatFlags.ZERO

def Cpu.clear_zero (s : Cpu) : Cpu := s.remove_flag StatFlags.ZERO

def Cpu.set_carry (s : Cpu) : Cpu := s.insert_flag StatFlags.CARRY

def Cpu.clear_carry (s : Cpu) : Cpu := s.remove_flag StatFlags.CARRY

def Cpu.set_overflow (s : Cpu) : Cpu := s.insert_flag StatFlags.OVERFLOW

def Cpu.clear_overflow (s : Cpu) : Cpu := s.remove_flag StatFlags.OVERFLOW

def Cpu.update_zero_and_negative_flags (s : Cpu) (result : Nat) : Cpu :=
  let s := if result = 0 then s.set_zero else s.clear_zero
  if result &&& 0b10000000 ≠ 0 then s.insert_flag StatFlags.NEGATIVE
  else s.remove_flag StatFlags.NEGATIVE

def Cpu.lda (s : Cpu) (mode : AddressingMode) : Cpu :=
  let addr := s.get_operand_address mode
  let s := { s with a := s.mem_read addr }
  s.update_zero_and_negative_flags s.a

def Cpu.ldx (s : Cpu) (mode : AddressingMode) : Cpu :=
  let addr := s.get_operand_address mode
  let s := { s with x := s.mem_read addr }
  s.update_zero_and_negative_flags s.x

def Cpu.ldy (s : Cpu) (mode : AddressingMode) : Cpu :=
  let addr := s.get_operand_address mode
  let s := { s with y := s.mem_read addr }
  s.update_zero_and_negative_flags s.y

def Cpu.sta (s : Cpu) (mode : AddressingMode) : Cpu :=
  let addr := s.get_operand_address mode
  s.mem_write addr s.a

def Cpu.stx (s : Cpu) (mode : AddressingMode) : Cpu :=
  let addr := s.get_operand_address mode
  s.mem_write addr s.x

def Cpu.sty (s : Cpu) (mode : AddressingMode) : Cpu :=
  let addr := s.get_operand_address mode
  s.mem_write addr s.y

/-- cpu.rs `Cpu::add_to_a` (decimal mode ignored, as in the source). -/
def Cpu.add_to_a (s : Cpu) (data : Nat) : Cpu :=
  let sum := s.a % 256 + data % 256
    + (if s.contains_flag StatFlags.CARRY then 1 else 0)
  let res := sum % 256
  let s1 := if sum > 0xff then s.insert_flag StatFlags.CARRY
    else s.remove_flag StatFlags.CARRY
  let s2 := if (data ^^^ res) &&& (res ^^^ s.a) &&& 0x80 ≠ 0 then
      s1.insert_flag StatFlags.OVERFLOW
    else s1.remove_flag StatFlags.OVERFLOW
  let s3 := s2.update_zero_and_negative_flags res
  { s3 with a := res }

def Cpu.adc (s : Cpu) (mode : AddressingMode) : Cpu :=
  let addr := s.get_operand_address mode
  let val := s.mem_read addr
  s.add_to_a val

/-- `((val as i8).wrapping_neg().wrapping_sub(1)) as u8`, i.e. the bitwise
complement of the byte. -/
def sbc_operand (val : Nat) : Nat := 255 - val % 256

def Cpu.sbc (s : Cpu) (mode : AddressingMode) : Cpu :=
  let addr := s.get_operand_address mode
  let val := s.mem_read addr
  s.add_to_a (sbc_operand val)

def Cpu.and (s : Cpu) (mode : AddressingMode) : Cpu :=
  let addr := s.get_operand_address mode
  let val := s.mem_read addr
  let s := { s with a := val &&& s.a }
  s.update_zero_and_negative_flags s.a

def Cpu.ora (s : Cpu) (mode : AddressingMode) : Cpu :=
  let addr := s.get_operand_address mode
  let val := s.mem_read addr
  let s := { s with a := val ||| s.a }
  s.update_zero_and_negative_flags s.a

def Cpu.eor (s : Cpu) (mode : AddressingMode) : Cpu :=
  let addr := s.get_operand_address mode
  let data := s.mem_read addr
  let s := { s with a := data ^^^ s.a }
  s.update_zero_and_negative_flags s.a

def Cpu.tax (s : Cpu) : Cpu :=
  let s := { s with x := s.a }
  s.update_zero_and_negative_flags s.x

/-- cpu.rs `Cpu::asl_accumulator`.  Note the carry test in the source is
`data >> 1 == 1` (not `data >> 7`). -/
def Cpu.asl_accumulator (s : Cpu) : Cpu :=
  let data := s.a
  let s := if data >>> 1 = 1 then s.set_carry else s.clear_carry
  let data := (data <<< 1) % 256
  let s := { s with a := data }
  s.update_zero_and_negative_flags s.a

/-- cpu.rs `Cpu::asl` (memory form); same `data >> 1 == 1` carry test. -/
def Cpu.asl (s : Cpu) (mode : AddressingMode) : Cpu × Nat :=
  let addr := s.get_operand_address mode
  let data := s.mem_read addr
  let s := if data >>> 1 = 1 then s.set_carry else s.clear_carry
  let data := (data <<< 1) % 256
  let s := s.mem_write addr data
  (s.update_zero_and_negative_flags data, data)

def Cpu.lsr_accumulator (s : Cpu) : Cpu :=
  let data := s.a
  let s := if data &&& 1 = 1 then s.set_carry else s.clear_carry
  let data := data >>> 1
  let s := { s with a := data }
  s.update_zero_and_negative_flags s.a

def Cpu.lsr (s : Cpu) (mode : AddressingMode) : Cpu × Nat :=
  let addr := s.get_operand_address mode
  let data := s.mem_read addr
  let s := if data &&& 1 = 1 then s.set_carry else s.clear_carry
  let data := data >>> 1
  let s := s.mem_write addr data
  (s.update_zero_and_negative_flags data, data)

def Cpu.rol_accumulator (s : Cpu) : Cpu :=
  let data := s.a
  let tmp_carry := s.contains_flag StatFlags.CARRY
  let s := if data >>> 7 = 1 then s.set_carry else s.clear_carry
  let data := (data <<< 1) % 256
  let data := if tmp_carry then data ||| 1 else data
  let s := { s with a := data }
  s.update_zero_and_negative_flags data

def Cpu.rol (s : Cpu) (mode : AddressingMode) : Cpu × Nat :=
  let addr := s.get_operand_address mode
  let data := s.mem_read addr
  let tmp_carry := s.contains_flag StatFlags.CARRY
  let s := if data >>> 7 = 1 then s.set_carry else s.clear_carry
  let data := (data <<< 1) % 256
  let data := if tmp_carry then data ||| 1 else data
  let s := s.mem_write addr data
  (s.update_zero_and_negative_flags data, data)

def Cpu.ror_accumulator (s : Cpu) : Cpu :=
  let data := s.a
  let tmp_carry := s.contains_flag StatFlags.CARRY
  let s := if data &&& 1 = 1 then s.set_carry else s.clear_carry
  let data := data >>> 1
  let data := if tmp_carry then data ||| 0b10000000 else data
  let s := { s with a := data }
  s.update_zero_and_negative_flags data

def Cpu.ror (s : Cpu) (mode : AddressingMode) : Cpu × Nat :=
  let addr := s.get_operand_address mode
  let data := s.mem_read addr
  let tmp_carry := s.contains_flag StatFlags.CARRY
  let s := if data &&& 1 = 1 then s.set_carry else s.clear_carry
  let data := data >>> 1
  let data := if tmp_carry then data ||| 0b10000000 else data
  let s := s.mem_write addr data
  (s.update_zero_and_negative_flags data, data)

def Cpu.bit (s : Cpu) (mode : AddressingMode) : Cpu :=
  let addr := s.get_operand_address mode
  let data := s.mem_read addr
  let masked := s.a &&& data
  let s := if masked = 0 then s.set_zero else s.clear_zero
  let s := s.set_flag StatFlags.NEGATIVE (data &&& (1 <<< 7) > 0)
  s.set_flag StatFlags.OVERFLOW (data &&& (1 <<< 6) > 0)

/-- cpu.rs `Cpu::compare` (CMP/CPX/CPY kernel); `w` is the register value
(`with` in the source).  Note the carry test in the source is
`data < with` → set carry, else clear. -/
def Cpu.compare (s : Cpu) (mode : AddressingMode) (w : Nat) : Cpu :=
  let addr := s.get_operand_address mode
  let data := s.mem_read addr
  let s := if data < w then s.set_carry else s.clear_carry
  s.update_zero_and_negative_flags (wrap8_sub w data)

def Cpu.dec (s : Cpu) (mode : AddressingMode) : Cpu :=
  let addr := s.get_operand_address mode
  let data := s.mem_read addr
  let data := wrap8_sub data 1
  let s := s.mem_write addr data
  s.update_zero_and_negative_flags data

def Cpu.dex (s : Cpu) : Cpu :=
  let s := { s with x := wrap8_sub s.x 1 }
  s.update_zero_and_negative_flags s.x

def Cpu.dey (s : Cpu) : Cpu :=
  let s := { s with y := wrap8_sub s.y 1 }
  s.update_zero_and_negative_flags s.y

def Cpu.inc (s : Cpu) (mode : AddressingMode) : Cpu × Nat :=
  let addr := s.get_operand_address mode
  let data := s.mem_read addr
  let data := wrap8_add data 1
  let s := s.mem_write addr data
  (s.update_zero_and_negative_flags data, data)

def Cpu.inx (s : Cpu) : Cpu :=
  let s := { s with x := wrap8_add s.x 1 }
  s.update_zero_and_negative_flags s.x

def Cpu.iny (s : Cpu) : Cpu :=
  let s := { s with y := wrap8_add s.y 1 }
  s.update_zero_and_negative_flags s.y

def Cpu.stack_push (s : Cpu) (data : Nat) : Cpu :=
  let s := s.mem_write (STACK_BASE + s.sp % 256) data
  { s with sp := wrap8_sub s.sp 1 }

def Cpu.stack_push_u16 (s : Cpu) (data : Nat) : Cpu :=
  let high := (data >>> 8) % 256
  let low := data &&& 0xff
  let s := s.stack_push high
  s.stack_push low

def Cpu.stack_pop (s : Cpu) : Cpu × Nat :=
  let sp := wrap8_add s.sp 1
  let s := { s with sp := sp }
  (s, s.mem_read (STACK_BASE + sp))

def Cpu.stack_pop_u16 (s : Cpu) : Cpu × Nat :=
  let p1 := s.stack_pop
  let p2 := p1.1.stack_pop
  (p2.1, (p2.2 <<< 8) ||| p1.2)

/-- cpu.rs `Cpu::php`: push status with BREAK and BREAK2 inserted in the
pushed copy only. -/
def Cpu.php (s : Cpu) : Cpu :=
  let stat := (s.stat ||| StatFlags.BREAK) ||| StatFlags.BREAK2
  s.stack_push stat

/-- cpu.rs `Cpu::plp`: pop status, then remove BREAK and remove BREAK2. -/
def Cpu.plp (s : Cpu) : Cpu :=
  let p := s.stack_pop
  let s := { p.1 with stat := p.2 }
  let s := s.remove_flag StatFlags.BREAK
  s.remove_flag StatFlags.BREAK2

/-- cpu.rs `Cpu::branch` (relative branches; the offset byte is
sign-extended from i8 to u16 and added with 16-bit wraparound). -/
def Cpu.branch (s : Cpu) (cond : Bool) : Cpu :=
  if cond then
    let rel := s.mem_read s.pc
    let rel16 := if rel < 128 then rel else 0xff00 + rel
    { s with pc := (s.pc + 1 + rel16) % 65536 }
  else s

/- interrupt module (cpu.rs `mod interrupt`). -/

def interrupt.NMI_vector_addr : Nat := 0xfffa

def interrupt.NMI_b_flag_mask : Nat := 0b100000

def interrupt.NMI_cpu_cycles : Nat := 2

/-- cpu.rs `Cpu::interrupt` applied to `interrupt::NMI`.  Returns the new
CPU state together with the cycle count reported to `bus.tick`.
The source sets BREAK from `b_flag_mask & 0b010000 == 1` and BREAK2 from
`b_flag_mask & 0b100000 == 1` on a clone of the status. -/
def Cpu.interrupt_nmi (s : Cpu) : Cpu × Nat :=
  let s := s.stack_push_u16 s.pc
  let stat := s.stat
  let stat := flag_set_bits stat StatFlags.BREAK
    (interrupt.NMI_b_flag_mask &&& 0b010000 = 1)
  let stat := flag_set_bits stat StatFlags.BREAK2
    (interrupt.NMI_b_flag_mask &&& 0b100000 = 1)
  let s := s.stack_push stat
  let s := s.insert_flag StatFlags.INTERRUPT_DISABLE
  let s := { s with pc := s.mem_read_u16 interrupt.NMI_vector_addr }
  (s, interrupt.NMI_cpu_cycles)

/- Instruction table (instructions.rs).  The mnemonic string is used only
for tracing in the source and is omitted here.  `INSTRUCTION_MAP` is the
opcode → descriptor lookup built from `CPU_INSTRUCTIONS`; opcodes that do
not appear in the `vec!` are absent from the map, so executing them makes
the run loop's `.expect` panic ("not recognized"). -/

structure Instruction where
  len : Nat
  cycles : Nat
  mode : AddressingMode

def INSTRUCTION_MAP (opcode : Nat) : Option Instruction :=
  match opcode with
  | 0x00 => some ⟨1, 7, .Implied⟩
  | 0xaa => some ⟨1, 2, .Implied⟩
  | 0x8a => some ⟨1, 2, .Implied⟩
  | 0xa8 => some ⟨1, 2, .Implied⟩
  | 0x98 => some ⟨1, 2, .Implied⟩
  | 0xba => some ⟨1, 2, .Implied⟩
  | 0x9a => some ⟨1, 2, .Implied⟩
  | 0xa9 => some ⟨2, 2, .Immediate⟩
  | 0xa5 => some ⟨2, 3, .ZeroPage⟩
  | 0xb5 => some ⟨2, 4, .ZeroPageX⟩
  | 0xad => some ⟨3, 4, .Absolute⟩
  | 0xbd => some ⟨3, 4, .AbsoluteX⟩
  | 0xb9 => some ⟨3, 4, .AbsoluteY⟩
  | 0xa1 => some ⟨2, 6, .IndirectX⟩
  | 0xb1 => some ⟨2, 5, .IndirectY⟩
  | 0xa2 => some ⟨2, 2, .Immediate⟩
  | 0xa6 => some ⟨2, 3, .ZeroPage⟩
  | 0xb6 => some ⟨2, 4, .ZeroPageY⟩
  | 0xae => some ⟨3, 4, .Absolute⟩
  | 0xbe => some ⟨3, 4, .AbsoluteY⟩
  | 0xa0 => some ⟨2, 2, .Immediate⟩
  | 0xa4 => some ⟨2, 3, .ZeroPage⟩
  | 0xb4 => some ⟨2, 4, .ZeroPageX⟩
  | 0xac => some ⟨3, 4, .Absolute⟩
  | 0xbc => some ⟨3, 4, .AbsoluteX⟩
  | 0x85 => some ⟨2, 3, .ZeroPage⟩
  | 0x95 => some ⟨2, 4, .ZeroPageX⟩
  | 0x8d => some ⟨3, 4, .Absolute⟩
  | 0x9d => some ⟨3, 5, .AbsoluteX⟩
  | 0x99 => some ⟨3, 5, .AbsoluteY⟩
  | 0x81 => some ⟨2, 6, .IndirectX⟩
  | 0x91 => some ⟨2, 6, .IndirectY⟩
  | 0x86 => some ⟨2, 3, .ZeroPage⟩
  | 0x96 => some ⟨2, 4, .ZeroPageY⟩
  | 0x8e => some ⟨3, 4, .Absolute⟩
  | 0x84 => some ⟨2, 3, .ZeroPage⟩
  | 0x94 => some ⟨2, 4, .ZeroPageX⟩
  | 0x8c => some ⟨3, 4, .Absolute⟩
  | 0x69 => some ⟨2, 2, .Immediate⟩
  | 0x65 => some ⟨2, 3, .ZeroPage⟩
  | 0x75 => some ⟨2, 4, .ZeroPageX⟩
  | 0x6d => some ⟨3, 4, .Absolute⟩
  | 0x7d => some ⟨3, 4, .AbsoluteX⟩
  | 0x79 => some ⟨3, 4, .AbsoluteY⟩
  | 0x61 => some ⟨2, 6, .IndirectX⟩
  | 0x71 => some ⟨2, 5, .IndirectY⟩
  | 0x29 => some ⟨2, 2, .Immediate⟩
  | 0x25 => some ⟨2, 3, .ZeroPage⟩
  | 0x35 => some ⟨2, 4, .ZeroPageX⟩
  | 0x2d => some ⟨3, 4, .Absolute⟩
  | 0x3d => some ⟨3, 4, .AbsoluteX⟩
  | 0x39 => some ⟨3, 4, .AbsoluteY⟩
  | 0x21 => some ⟨2, 6, .IndirectX⟩
  | 0x31 => some ⟨2, 5, .IndirectY⟩
  | 0xe9 => some ⟨2, 2, .Immediate⟩
  | 0xe5 => some ⟨2, 3, .ZeroPage⟩
  | 0xf5 => some ⟨2, 4, .ZeroPageX⟩
  | 0xed => some ⟨3, 4, .Absolute⟩
  | 0xfd => some ⟨3, 4, .AbsoluteX⟩
  | 0xf9 => some ⟨3, 4, .AbsoluteY⟩
  | 0xe1 => some ⟨2, 6, .IndirectX⟩
  | 0xf1 => some ⟨2, 5, .IndirectY⟩
  | 0x0a => some ⟨1, 2, .Implied⟩
  | 0x06 => some ⟨2, 5, .ZeroPage⟩
  | 0x16 => some ⟨2, 6, .ZeroPageX⟩
  | 0x0e => some ⟨3, 6, .Absolute⟩
  | 0x1e => some ⟨3, 7, .AbsoluteX⟩
  | 0x4a => some ⟨1, 2, .Implied⟩
  | 0x46 => some ⟨2, 5, .ZeroPage⟩
  | 0x56 => some ⟨2, 6, .ZeroPageX⟩
  | 0x4e => some ⟨3, 6, .Absolute⟩
  | 0x5e => some ⟨3, 7, .AbsoluteX⟩
  | 0x24 => some ⟨2, 3, .ZeroPage⟩
  | 0x2c => some ⟨3, 4, .Absolute⟩
  | 0xc9 => some ⟨2, 2, .Immediate⟩
  | 0xc5 => some ⟨2, 3, .ZeroPage⟩
  | 0xd5 => some ⟨2, 4, .ZeroPageX⟩
  | 0xcd => some ⟨3, 4, .Absolute⟩
  | 0xdd => some ⟨3, 4, .AbsoluteX⟩
  | 0xd9 => some ⟨3, 4, .AbsoluteY⟩
  | 0xc1 => some ⟨2, 6, .IndirectX⟩
  | 0xd1 => some ⟨2, 5, .IndirectY⟩
  | 0xe0 => some ⟨2, 2, .Immediate⟩
  | 0xe4 => some ⟨2, 3, .ZeroPage⟩
  | 0xec => some ⟨3, 4, .Absolute⟩
  | 0xc0 => some ⟨2, 2, .Immediate⟩
  | 0xc4 => some ⟨2, 3, .ZeroPage⟩
  | 0xcc => some ⟨3, 4, .Absolute⟩
  | 0xc6 => some ⟨2, 5, .ZeroPage⟩
  | 0xd6 => some ⟨2, 6, .ZeroPageX⟩
  | 0xce => some ⟨3, 6, .Absolute⟩
  | 0xde => some ⟨3, 7, .AbsoluteX⟩
  | 0xca => some ⟨1, 2, .Implied⟩
  | 0x88 => some ⟨1, 2, .Implied⟩
  | 0xe6 => some ⟨2, 5, .ZeroPage⟩
  | 0xf6 => some ⟨2, 6, .ZeroPageX⟩
  | 0xee => some ⟨3, 6, .Absolute⟩
  | 0xfe => some ⟨3, 7, .AbsoluteX⟩
  | 0xe8 => some ⟨1, 2, .Implied⟩
  | 0xc8 => some ⟨1, 2, .Implied⟩
  | 0x49 => some ⟨2, 2, .Immediate⟩
  | 0x45 => some ⟨2, 3, .ZeroPage⟩
  | 0x55 => some ⟨2, 4, .ZeroPageX⟩
  | 0x4d => some ⟨3, 4, .Absolute⟩
  | 0x5d => some ⟨3, 4, .AbsoluteX⟩
  | 0x59 => some ⟨3, 4, .AbsoluteY⟩
  | 0x41 => some ⟨2, 6, .IndirectX⟩
  | 0x51 => some ⟨2, 5, .IndirectY⟩
  | 0x48 => some ⟨1, 2, .Implied⟩
  | 0x68 => some ⟨1, 4, .Implied⟩
  | 0x08 => some ⟨1, 3, .Implied⟩
  | 0x28 => some ⟨1, 3, .Implied⟩
  | 0x40 => some ⟨1, 6, .Implied⟩
  | 0x60 => some ⟨1, 6, .Implied⟩
  | 0x4c => some ⟨3, 5, .Absolute⟩
  | 0x20 => some ⟨3, 6, .Absolute⟩
  | _ => none

/-- The dispatch `match opcode` of `Cpu::run_with_callback`, for the state
after the opcode fetch (`pc` already advanced past the opcode byte).
BRK (0x00) is handled by the step function itself.  Arms for opcodes that
are not in `INSTRUCTION_MAP` (ORA, ROL, ROR, branches, flag ops, NOPs and
the unofficial opcodes) are unreachable: the `.expect` on the map lookup
aborts before the dispatch, so they are collapsed into the default arm. -/
def Cpu.exec_opcode (s : Cpu) (opcode : Nat) (mode : AddressingMode) : Cpu :=
  match opcode with
  | 0xaa =>
      let s := { s with x := s.a }
      s.update_zero_and_negative_flags s.x
  | 0x8a =>
      let s := { s with a := s.x }
      s.update_zero_and_negative_flags s.a
  | 0xa8 =>
      let s := { s with y := s.a }
      s.update_zero_and_negative_flags s.y
  | 0x98 =>
      let s := { s with a := s.y }
      s.update_zero_and_negative_flags s.a
  | 0xba =>
      let s := { s with x := s.sp }
      s.update_zero_and_negative_flags s.x
  | 0x9a =>
      let s := { s with sp := s.x }
      s.update_zero_and_negative_flags s.sp
  | 0xa9 | 0xa5 | 0xb5 | 0xad | 0xbd | 0xb9 | 0xa1 | 0xb1 => s.lda mode
  | 0xa2 | 0xa6 | 0xb6 | 0xae | 0xbe => s.ldx mode
  | 0xa0 | 0xa4 | 0xb4 | 0xac | 0xbc => s.ldy mode
  | 0x85 | 0x95 | 0x8d | 0x9d | 0x99 | 0x81 | 0x91 => s.sta mode
  | 0x86 | 0x96 | 0x8e => s.stx mode
  | 0x84 | 0x94 | 0x8c => s.sty mode
  | 0x69 | 0x65 | 0x75 | 0x6d | 0x7d | 0x79 | 0x61 | 0x71 => s.adc mode
  | 0x29 | 0x25 | 0x35 | 0x2d | 0x3d | 0x39 | 0x21 | 0x31 => s.and mode
  | 0x0a => s.asl_accumulator
  | 0x06 | 0x16 | 0x0e | 0x1e => (s.asl mode).1
  | 0x4a => s.lsr_accumulator
  | 0x46 | 0x56 | 0x4e | 0x5e => (s.lsr mode).1
  | 0x24 | 0x2c => s.bit mode
  | 0xc9 | 0xc5 | 0xd5 | 0xcd | 0xdd | 0xd9 | 0xc1 | 0xd1 => s.compare mode s.a
  | 0xe0 | 0xe4 | 0xec => s.compare mode s.x
  | 0xc0 | 0xc4 | 0xcc => s.compare mode s.y
  | 0xc6 | 0xd6 | 0xce | 0xde => s.dec mode
  | 0xca => s.dex
  | 0x88 => s.dey
  | 0xe6 | 0xf6 | 0xee | 0xfe => (s.inc mode).1
  | 0xe8 => s.inx
  | 0xc8 => s.iny
  | 0x49 | 0x45 | 0x55 | 0x4d | 0x5d | 0x59 | 0x41 | 0x51 => s.eor mode
  | 0xe9 | 0xe5 | 0xf5 | 0xed | 0xfd | 0xf9 | 0xe1 | 0xf1 => s.sbc mode
  | 0x48 => s.stack_push s.a
  | 0x68 =>
      let p := s.stack_pop
      { p.1 with a := p.2 }
  | 0x08 => s.php
  | 0x28 => s.plp
  | 0x40 =>
      let p := s.stack_pop
      let s := { p.1 with stat := p.2 }
      let s := s.remove_flag StatFlags.BREAK
      let s := s.insert_flag StatFlags.BREAK2
      let q := s.stack_pop_u16
      { q.1 with pc := q.2 }
  | 0x60 =>
      let q := s.stack_pop_u16
      { q.1 with pc := (q.2 + 1) % 65536 }
  | 0x4c =>
      let addr := s.mem_read_u16 s.pc
      { s with pc := addr }
  | 0x20 =>
      let s := s.stack_push_u16 ((s.pc + 2 - 1) % 65536)
      let addr := s.mem_read_u16 s.pc
      { s with pc := addr }
  | _ => s

/-- Result of one iteration of the `run_with_callback` loop body:
`halt` for BRK's `return`, `unrecognized` for the `.expect` panic on an
opcode missing from `INSTRUCTION_MAP`, otherwise the successor state. -/
inductive StepResult where
  | halt
  | unrecognized
  | next (c : Cpu)

/-- One iteration of `Cpu::run_with_callback` (NMI polling and the trace
callback aside): fetch the opcode, advance `pc`, remember `pc_to_operand`,
look up the descriptor, dispatch, and advance `pc` by `len - 1` unless the
instruction moved `pc`.  `bus.tick` only advances the PPU and is dropped
by the memory abstraction. -/
def Cpu.step (s : Cpu) : StepResult :=
  let opcode := s.mem_read s.pc
  let s := { s with pc := (s.pc + 1) % 65536 }
  let pc_to_operand := s.pc
  match INSTRUCTION_MAP opcode with
  | none => .unrecognized
  | some cur_inst =>
    if opcode = 0x00 then .halt
    else
      let s := s.exec_opcode opcode cur_inst.mode
      let s := if pc_to_operand = s.pc then
          { s with pc := (s.pc + (cur_inst.len - 1)) % 65536 }
        else s
      .next s

/-- Projection used to state `pc` facts about a step. -/
def Cpu.step_pc (s : Cpu) : Option Nat :=
  match s.step with
  | .next c => some c.pc
  | _ => none

/-- `n` successive loop iterations (`none` if the run stops). -/
def Cpu.step_n (s : Cpu) : Nat → Option Cpu
  | 0 => some s
  | n + 1 =>
    match s.step with
    | .next c => c.step_n n
    | _ => none

/-- The value assigned to `pc` by each control-transfer opcode among the
recognized instructions, read off the corresponding dispatch arm.  `s` is
the post-fetch state (`pc` pointing at the operand bytes). -/
def Cpu.transfer_target (s : Cpu) (opcode : Nat) : Nat :=
  match opcode with
  | 0x4c => s.mem_read_u16 s.pc
  | 0x20 => (s.stack_push_u16 ((s.pc + 2 - 1) % 65536)).mem_read_u16 s.pc
  | 0x60 => (s.stack_pop_u16.2 + 1) % 65536
  | 0x40 => (s.stack_pop.1.stack_pop_u16).2
  | _ => 0

/- PPU embedding. -/

/-- ppu/mod.rs `enum Mirroring`. -/
inductive Mirroring where
  | Vertical
  | Horizontal
  | FourScreen

/-- ppu.rs `struct AddrRegister`: `value.0` is the high byte (`hi`),
`value.1` the low byte (`lo`), `hi_ptr` the shared write latch. -/
structure AddrRegister where
  hi : Nat
  lo : Nat
  hi_ptr : Bool

def AddrRegister.new : AddrRegister := ⟨0, 0, true⟩

/-- ppu.rs `AddrRegister::set` (`as u8` casts made explicit). -/
def AddrRegister.set (r : AddrRegister) (data : Nat) : AddrRegister :=
  { r with hi := (data >>> 8) % 256, lo := data &&& 0xff }

def AddrRegister.get (r : AddrRegister) : Nat :=
  (r.hi <<< 8) ||| r.lo

/-- ppu.rs `AddrRegister::update`: write one byte selected by the latch,
mask the assembled address to 14 bits when it exceeds `0x3fff`, toggle the
latch. -/
def AddrRegister.update (r : AddrRegister) (data : Nat) : AddrRegister :=
  let r := if r.hi_ptr then { r with hi := data } else { r with lo := data }
  let r := if r.get > 0x3fff then r.set (r.get &&& 0b11111111111111) else r
  { r with hi_ptr := !r.hi_ptr }

/-- ppu.rs `AddrRegister::inc`. -/
def AddrRegister.inc (r : AddrRegister) (step : Nat) : AddrRegister :=
  let low := r.lo
  let r := { r with lo := wrap8_add r.lo step }
  let r := if low > r.lo then { r with hi := wrap8_add r.hi 1 } else r
  if r.get > 0x3fff then r.set (r.get &&& 0b11111111111111) else r

def AddrRegister.reset_latch (r : AddrRegister) : AddrRegister :=
  { r with hi_ptr := true }

/-- Modelled from the spec: `src/ppu/status.rs` is not present under
`src/`.  Spec §4.4: "Status register semantics. Bit 7 = in-vblank; bit 6 =
sprite-zero hit; bit 5 = sprite overflow (stubbed). Reading it returns a
snapshot, then clears bit 7 and the address/scroll latch." -/
structure StatusRegister where
  bits : Nat

def StatusRegister.VBLANK_STARTED : Nat := 0b10000000

def StatusRegister.SPRITE_ZERO_HIT : Nat := 0b01000000

def StatusRegister.new : StatusRegister := ⟨0⟩

def StatusRegister.snapshot (r : StatusRegister) : Nat := r.bits

def StatusRegister.set_vblank_status (r : StatusRegister) (b : Bool) :
    StatusRegister :=
  ⟨flag_set_bits r.bits StatusRegister.VBLANK_STARTED b⟩

def StatusRegister.clear_vblank_status (r : StatusRegister) : StatusRegister :=
  ⟨r.bits &&& (255 ^^^ StatusRegister.VBLANK_STARTED)⟩

def StatusRegister.set_sprite_zero_hit (r : StatusRegister) (b : Bool) :
    StatusRegister :=
  ⟨flag_set_bits r.bits StatusRegister.SPRITE_ZERO_HIT b⟩

def StatusRegister.is_in_vblank (r : StatusRegister) : Bool :=
  r.bits &&& StatusRegister.VBLANK_STARTED ≠ 0

/-- ppu.rs `struct ControlRegister` (bit constants from the `bitflags!`
block in ppu.rs, which is present under `src/`). -/
structure ControlRegister where
  bits : Nat

def ControlRegister.VRAM_ADD_INCREMENT : Nat := 0b00000100

def ControlRegister.GENERATE_NMI : Nat := 0b10000000

def ControlRegister.new : ControlRegister := ⟨0⟩

def ControlRegister.update (_r : ControlRegister) (data : Nat) :
    ControlRegister := ⟨data⟩

def ControlRegister.inc_vram_addr (r : ControlRegister) : Nat :=
  if !(r.bits &&& ControlRegister.VRAM_ADD_INCREMENT ==
      ControlRegister.VRAM_ADD_INCREMENT) then 1 else 32

/-- Modelled from the spec: `src/ppu/control.rs` (with the
`generate_vbalnk_nmi` accessor used by ppu/mod.rs) is not present under
`src/`; per spec §4.4 "CTRL bit 7 (generate-NMI)" it tests the
GENERATE_NMI bit, whose constant is in ppu.rs. -/
def ControlRegister.generate_vbalnk_nmi (r : ControlRegister) : Bool :=
  r.bits &&& ControlRegister.GENERATE_NMI = ControlRegister.GENERATE_NMI

/-- Modelled from the spec: `src/ppu/scroll.rs` is not present under
`src/`.  Spec §3: "`scroll`: an (x,y) pair assembled via the same latch
discipline (shared reset with `addr`)." -/
structure ScrollRegister where
  scroll_x : Nat
  scroll_y : Nat
  latch : Bool

def ScrollRegister.new : ScrollRegister := ⟨0, 0, false⟩

def ScrollRegister.write (r : ScrollRegister) (data : Nat) : ScrollRegister :=
  let r := if !r.latch then { r with scroll_x := data }
    else { r with scroll_y := data }
  { r with latch := !r.latch }

def ScrollRegister.reset_latch (r : ScrollRegister) : ScrollRegister :=
  { r with latch := false }

/-- PPU state (ppu/mod.rs `struct Ppu`).  The byte arrays (`chr_rom`,
`palette_table`, `vram`, `oam_data`), `oam_addr`, the mask register and
`internal_buf` are not touched by the verified claims and are omitted;
the claims about VRAM indexing are stated about `mirror_vram_addr`. -/
structure Ppu where
  mirroring : Mirroring
  ctrl : ControlRegister
  addr : AddrRegister
  stat : StatusRegister
  scroll : ScrollRegister
  scanline : Nat
  cycles : Nat
  nmi_interrupt : Option Nat

/-- ppu/mod.rs `Ppu::new` (register file zeroed, counters at 0). -/
def Ppu.new (mirroring : Mirroring) : Ppu :=
  { mirroring := mirroring
    ctrl := ControlRegister.new
    addr := AddrRegister.new
    stat := StatusRegister.new
    scroll := ScrollRegister.new
    scanline := 0
    cycles := 0
    nmi_interrupt := none }

/-- ppu/mod.rs `Ppu::read_status`: snapshot, clear vblank, reset both
latches, return the snapshot. -/
def Ppu.read_status (p : Ppu) : Ppu × Nat :=
  let data := p.stat.snapshot
  let p := { p with stat := p.stat.clear_vblank_status }
  let p := { p with addr := p.addr.reset_latch }
  let p := { p with scroll := p.scroll.reset_latch }
  (p, data)

/-- ppu/mod.rs `Ppu::write_to_ppu_addr` (CPU write to 0x2006). -/
def Ppu.write_to_ppu_addr (p : Ppu) (value : Nat) : Ppu :=
  { p with addr := p.addr.update value }

/-- ppu/mod.rs `Ppu::mirror_vram_addr` (pure in `self.mirroring`). -/
def Ppu.mirror_vram_addr (mirroring : Mirroring) (addr : Nat) : Nat :=
  let mirrored_vram := addr &&& 0b10111111111111
  let vram_index := mirrored_vram - 0x2000
  let name_table := vram_index / 0x400
  match mirroring, name_table with
  | .Vertical, 2 | .Vertical, 3 => vram_index - 0x800
  | .Horizontal, 2 => vram_index - 0x400
  | .Horizontal, 1 => vram_index - 0x400
  | .Horizontal, 3 => vram_index - 0x800
  | _, _ => vram_index

/-- ppu/mod.rs `Ppu::tick`: accumulate cycles, cross at most one scanline
boundary per call, set vblank (and possibly NMI) when the scanline becomes
241, wrap at 262 clearing vblank and sprite-zero hit and reporting a
completed frame. -/
def Ppu.tick (p : Ppu) (cycles : Nat) : Ppu × Bool :=
  let p := { p with cycles := p.cycles + cycles }
  if p.cycles ≥ 341 then
    let p := { p with cycles := p.cycles - 341, scanline := p.scanline + 1 }
    let p : Ppu := if p.scanline = 241 then
        let p := { p with stat :=
          (p.stat.set_vblank_status true).set_sprite_zero_hit false }
        if p.ctrl.generate_vbalnk_nmi then { p with nmi_interrupt := some 1 }
        else p
      else p
    if p.scanline ≥ 262 then
      let p := { p with scanline := 0, nmi_interrupt := none }
      let p := { p with stat :=
        (p.stat.set_sprite_zero_hit false).clear_vblank_status }
      (p, true)
    else (p, false)
  else (p, false)

/-- Iterate `Ppu.tick` over a list of per-call cycle increments, counting
the frame-complete signals (the bus forwards each `true` to the host
callback). -/
def Ppu.run_ticks (p : Ppu) (cs : List Nat) : Ppu × Nat :=
  cs.foldl
    (fun acc c =>
      ((acc.1.tick c).1, acc.2 + if (acc.1.tick c).2 then 1 else 0))
    (p, 0)

/- Renderer (render/mod.rs, background tile loop). -/

/-- The inner pixel loop of the background renderer for one tile row:
`for x in (0..=7).rev()` computes `(1 & upper) << 1 | (1 & lower)` and then
shifts both plane bytes right, so the first produced pixel is column 7.
Returns the `(column, palette value)` pairs in production order. -/
def render_row_vals (upper lower : Nat) : Nat → List (Nat × Nat)
  | 0 => []
  | n + 1 =>
    (n, ((1 &&& upper) <<< 1) ||| (1 &&& lower)) ::
      render_row_vals (upper >>> 1) (lower >>> 1) n

/-- render/mod.rs background loop, rows step: `upper = tile[y]`,
`lower = tile[y + 8]`, then the 8-column pixel loop.  `tile` is the
16-byte pattern slice as a byte function. -/
def render_bg_tile_row (tile : Nat → Nat) (y : Nat) : List (Nat × Nat) :=
  render_row_vals (tile y) (tile (y + 8)) 8

/- Concrete states used to evaluate the embedded code at specific inputs. -/

/-- A concrete byte memory given by an association list (0 elsewhere). -/
def list_mem (l : List (Nat × Nat)) : Nat → Nat :=
  fun addr => (((l.find? (fun q => q.1 == addr)).map Prod.snd).getD 0)

def c1_cpu : Cpu :=
  { pc := 0x8000, sp := 0xfd, a := 5, x := 0, y := 0, stat := 0b100100,
    mem := list_mem [(0x8000, 5)] }

def c2_cpu : Cpu :=
  { pc := 0x8000, sp := 0xfd, a := 0x80, x := 0, y := 0, stat := 0b100100,
    mem := list_mem [(0x8000, 0x10), (0x10, 0x80)] }

def c3_cpu : Cpu :=
  { pc := 0x8000, sp := 0xfd, a := 0, x := 0, y := 1, stat := 0b100100,
    mem := list_mem [(0x8000, 0x10), (0x10, 0x00), (0x11, 0x80),
                     (0x12, 0x90)] }

def c4_cpu : Cpu :=
  { pc := 0x1234, sp := 0xfd, a := 0, x := 0, y := 0, stat := 0xff,
    mem := list_mem [(0xfffa, 0x78), (0xfffb, 0x56)] }

def c5_cpu : Cpu :=
  { pc := 0x8000, sp := 0xfd, a := 0x42, x := 0, y := 0, stat := 0xef,
    mem := list_mem [(0x8000, 0x48), (0x8001, 0x68), (0x8002, 0x08),
                     (0x8003, 0x28)] }

/-- State for the C6 counterexample: a JMP absolute at `0x8000` whose
target `0x8001` is the address of its own operand low byte. -/
def c6_cpu : Cpu :=
  { pc := 0x8000, sp := 0xfd, a := 0, x := 0, y := 0, stat := 0b100100,
    mem := list_mem [(0x8000, 0x4c), (0x8001, 0x01), (0x8002, 0x80)] }

/-- State for the C6 witness: a TAX (`0xAA`, length 1) at `0x8000`. -/
def w6_cpu : Cpu :=
  { pc := 0x8000, sp := 0xfd, a := 7, x := 0, y := 0, stat := 0b100100,
    mem := list_mem [(0x8000, 0xaa)] }

/-- State for the C7 witness: PPU at the end of scanline 240 with
generate-NMI enabled. -/
def c7_p241 : Ppu :=
  { Ppu.new Mirroring.Vertical with scanline := 240, cycles := 340, ctrl := ⟨128⟩ }

/-- State for the C7 witness: PPU at the end of the last scanline (261). -/
def c7_p261 : Ppu :=
  { Ppu.new Mirroring.Vertical with scanline := 261, cycles := 340 }

/-- State for the C8 witness: one pending half-written `0x2006` byte (the
write latch points at the low byte) and both status bits 7 and 6 set. -/
def c8_ppu : Ppu :=
  { (Ppu.new Mirroring.Vertical).write_to_ppu_addr 0x06 with stat := ⟨0xc0⟩ }

/-- Claim C1.  The claim states that after CMP/CPX/CPY the Carry flag
equals `r ≥ m` (unsigned).  Evaluating `Cpu::compare` at the failing input
`r = m = 5` (CMP immediate): the code clears Carry (its test is
`data < with`, excluding equality), although `r ≥ m` holds; Zero is set
and A is unchanged as claimed. -/
theorem c1_compare_equal_operand :
    (c1_cpu.compare .Immediate c1_cpu.a).contains_flag StatFlags.CARRY
      = false ∧
    (c1_cpu.compare .Immediate c1_cpu.a).contains_flag StatFlags.ZERO
      = true ∧
    (c1_cpu.compare .Immediate c1_cpu.a).a = 5 ∧
    c1_cpu.a ≥ c1_cpu.mem_read (c1_cpu.get_operand_address .Immediate) := by
  decide

/-- Claim C2.  The claim states that ASL's Carry is the bit shifted out
(bit 7 of the input).  Evaluating the code: for input `0x80` (bit 7 set)
both ASL forms clear Carry (the source tests `data >> 1 == 1`, which holds
only for inputs 2 and 3), and for input `2` (bit 7 clear) ASL sets Carry;
LSR and ROL and ROR on the same inputs match the claim. -/
theorem c2_asl_carry_eval :
    ({ c2_cpu with a := 0x80 }).asl_accumulator.contains_flag StatFlags.CARRY
      = false ∧
    ({ c2_cpu with a := 0x80 }).asl_accumulator.a = 0 ∧
    ({ c2_cpu with a := 2 }).asl_accumulator.contains_flag StatFlags.CARRY
      = true ∧
    (c2_cpu.asl .ZeroPage).1.contains_flag StatFlags.CARRY = false ∧
    (c2_cpu.asl .ZeroPage).2 = 0 ∧
    ({ c2_cpu with a := 0x80 }).rol_accumulator.contains_flag StatFlags.CARRY
      = true ∧
    ({ c2_cpu with a := 1 }).lsr_accumulator.contains_flag StatFlags.CARRY
      = true ∧
    ({ c2_cpu with a := 1 }).ror_accumulator.contains_flag StatFlags.CARRY
      = true := by
  decide

/-- Claim C3.  The claim states that (Indirect),Y fetches the pointer from
zero page `base`/`base+1` and adds Y afterwards as a 16-bit quantity.
Evaluating the code with `base = 0x10`, `Y = 1`, `mem[0x10..0x12] =
[0x00, 0x80, 0x90]`: the code offsets the *pointer location* by Y (reading
`0x11`/`0x12`, yielding `0x9080`) and never adds Y to the fetched pointer;
the claim's address would be `0x8000 + 1 = 0x8001`. -/
theorem c3_indirect_y_eval :
    c3_cpu.get_operand_address .IndirectY = 0x9080 ∧
    (c3_cpu.mem_read_u16 (c3_cpu.mem_read c3_cpu.pc) + c3_cpu.y) % 65536
      = 0x8001 ∧
    c3_cpu.get_operand_address .IndirectY ≠ 0x8001 := by
  decide

/-- Claim C4.  The claim states that servicing an NMI pushes PC (high byte
first), pushes status with B = 0 and B2 = 1, sets Interrupt-Disable,
reports 2 cycles, and vectors through 0xFFFA/0xFFFB.  Evaluating the code
from `pc = 0x1234`, `sp = 0xfd`, `status = 0xff`: everything matches
except the pushed status byte, which is `0xcf` — B2 is 0, because both
`b_flag_mask & 0b010000 == 1` and `b_flag_mask & 0b100000 == 1` compare a
masked value against 1 and are always false. -/
theorem c4_nmi_eval :
    (c4_cpu.interrupt_nmi.1.mem 0x1fd = 0x12) ∧
    (c4_cpu.interrupt_nmi.1.mem 0x1fc = 0x34) ∧
    (c4_cpu.interrupt_nmi.1.mem 0x1fb = 0xcf) ∧
    ((0xcf : Nat) &&& StatFlags.BREAK2 = 0) ∧
    ((0xcf : Nat) &&& StatFlags.BREAK = 0) ∧
    (c4_cpu.interrupt_nmi.1.contains_flag StatFlags.INTERRUPT_DISABLE
      = true) ∧
    (c4_cpu.interrupt_nmi.2 = 2) ∧
    (c4_cpu.interrupt_nmi.1.pc = 0x5678) := by
  decide

/-- Claim C5.  The claim states PHA;PLA restores A and SP (it does) and
that PHP;PLP restores status with B forced to 0 and B2 forced to 1.
Running the program `48 68 08 28` (PHA PLA PHP PLP) from `a = 0x42`,
`sp = 0xfd`, `status = 0xef` (B2 set, B clear): after PHA;PLA both A and
SP are restored, but after PHP;PLP the status is `0xcf` — PLP *removes*
BREAK2 — instead of the claimed `0xef`. -/
theorem c5_stack_roundtrip_eval :
    ((c5_cpu.step_n 2).map (fun c => (c.a, c.sp))) = some (0x42, 0xfd) ∧
    ((c5_cpu.step_n 4).map (fun c => c.stat)) = some 0xcf ∧
    ((0xcf : Nat) &&& StatFlags.BREAK2 = 0) ∧
    ((0xef : Nat) &&& StatFlags.BREAK2 ≠ 0) := by
  decide

/-- Claim C9.  The claim states the background renderer uses byte `row` as
the low plane and byte `row+8` as the high plane with pixel value
`high <<< 1 ||| low`.  Evaluating the code on a tile whose byte 0 (the
claim's low plane) is 1 and byte 8 (the claim's high plane) is 0: the
rightmost pixel of row 0 (column 7, produced first) has value 2, not the
claimed 1 — the background loop computes `(1 & tile[row]) << 1 |
(1 & tile[row+8])`, i.e. the planes are swapped relative to the claim
(and relative to the sprite loop of the same file). -/
theorem c9_bg_plane_swap_eval :
    render_bg_tile_row (fun i => if i = 0 then 1 else 0) 0
      = [(7, 2), (6, 0), (5, 0), (4, 0), (3, 0), (2, 0), (1, 0), (0, 0)] ∧
    (2 : Nat) ≠ 1 := by
  decide

/- pc-projection lemmas used to analyse the step loop's pc bookkeeping. -/

@[simp] theorem cpu_pc_ite (c : Prop) [Decidable c] (p q : Cpu) :
    (if c then p else q).pc = if c then p.pc else q.pc := by
  split <;> rfl

@[simp] theorem Cpu.insert_flag_pc (s : Cpu) (f : Nat) :
    (s.insert_flag f).pc = s.pc := rfl

@[simp] theorem Cpu.remove_flag_pc (s : Cpu) (f : Nat) :
    (s.remove_flag f).pc = s.pc := rfl

@[simp] theorem Cpu.set_flag_pc (s : Cpu) (f : Nat) (b : Bool) :
    (s.set_flag f b).pc = s.pc := rfl

@[simp] theorem Cpu.set_zero_pc (s : Cpu) : s.set_zero.pc = s.pc := rfl

@[simp] theorem Cpu.clear_zero_pc (s : Cpu) : s.clear_zero.pc = s.pc := rfl

@[simp] theorem Cpu.set_carry_pc (s : Cpu) : s.set_carry.pc = s.pc := rfl

@[simp] theorem Cpu.clear_carry_pc (s : Cpu) : s.clear_carry.pc = s.pc := rfl

@[simp] theorem Cpu.mem_write_pc (s : Cpu) (addr data : Nat) :
    (s.mem_write addr data).pc = s.pc := rfl

@[simp] theorem Cpu.update_zn_pc (s : Cpu) (result : Nat) :
    (s.update_zero_and_negative_flags result).pc = s.pc := by
  unfold Cpu.update_zero_and_negative_flags
  split <;> split <;> rfl

@[simp] theorem Cpu.lda_pc (s : Cpu) (mode : AddressingMode) :
    (s.lda mode).pc = s.pc := by
  simp [Cpu.lda]

@[simp] theorem Cpu.ldx_pc (s : Cpu) (mode : AddressingMode) :
    (s.ldx mode).pc = s.pc := by
  simp [Cpu.ldx]

@[simp] theorem Cpu.ldy_pc (s : Cpu) (mode : AddressingMode) :
    (s.ldy mode).pc = s.pc := by
  simp [Cpu.ldy]

@[simp] theorem Cpu.sta_pc (s : Cpu) (mode : AddressingMode) :
    (s.sta mode).pc = s.pc := rfl

@[simp] theorem Cpu.stx_pc (s : Cpu) (mode : AddressingMode) :
    (s.stx mode).pc = s.pc := rfl

@[simp] theorem Cpu.sty_pc (s : Cpu) (mode : AddressingMode) :
    (s.sty mode).pc = s.pc := rfl

@[simp] theorem Cpu.add_to_a_pc (s : Cpu) (data : Nat) :
    (s.add_to_a data).pc = s.pc := by
  simp [Cpu.add_to_a]

@[simp] theorem Cpu.adc_pc (s : Cpu) (mode : AddressingMode) :
    (s.adc mode).pc = s.pc := by
  simp [Cpu.adc]

@[simp] theorem Cpu.sbc_pc (s : Cpu) (mode : AddressingMode) :
    (s.sbc mode).pc = s.pc := by
  simp [Cpu.sbc]

@[simp] theorem Cpu.and_pc (s : Cpu) (mode : AddressingMode) :
    (s.and mode).pc = s.pc := by
  simp [Cpu.and]

@[simp] theorem Cpu.ora_pc (s : Cpu) (mode : AddressingMode) :
    (s.ora mode).pc = s.pc := by
  simp [Cpu.ora]

@[simp] theorem Cpu.eor_pc (s : Cpu) (mode : AddressingMode) :
    (s.eor mode).pc = s.pc := by
  simp [Cpu.eor]

@[simp] theorem Cpu.asl_accumulator_pc (s : Cpu) :
    s.asl_accumulator.pc = s.pc := by
  simp [Cpu.asl_accumulator]

@[simp] theorem Cpu.asl_pc (s : Cpu) (mode : AddressingMode) :
    (s.asl mode).1.pc = s.pc := by
  simp [Cpu.asl]

@[simp] theorem Cpu.lsr_accumulator_pc (s : Cpu) :
    s.lsr_accumulator.pc = s.pc := by
  simp [Cpu.lsr_accumulator]

@[simp] theorem Cpu.lsr_pc (s : Cpu) (mode : AddressingMode) :
    (s.lsr mode).1.pc = s.pc := by
  simp [Cpu.lsr]

@[simp] theorem Cpu.bit_pc (s : Cpu) (mode : AddressingMode) :
    (s.bit mode).pc = s.pc := by
  simp [Cpu.bit]

@[simp] theorem Cpu.compare_pc (s : Cpu) (mode : AddressingMode) (w : Nat) :
    (s.compare mode w).pc = s.pc := by
  simp [Cpu.compare]

@[simp] theorem Cpu.dec_pc (s : Cpu) (mode : AddressingMode) :
    (s.dec mode).pc = s.pc := by
  simp [Cpu.dec]

@[simp] theorem Cpu.dex_pc (s : Cpu) : s.dex.pc = s.pc := by
  simp [Cpu.dex]

@[simp] theorem Cpu.dey_pc (s : Cpu) : s.dey.pc = s.pc := by
  simp [Cpu.dey]

@[simp] theorem Cpu.inc_pc (s : Cpu) (mode : AddressingMode) :
    (s.inc mode).1.pc = s.pc := by
  simp [Cpu.inc]

@[simp] theorem Cpu.inx_pc (s : Cpu) : s.inx.pc = s.pc := by
  simp [Cpu.inx]

@[simp] theorem Cpu.iny_pc (s : Cpu) : s.iny.pc = s.pc := by
  simp [Cpu.iny]

@[simp] theorem Cpu.stack_push_pc (s : Cpu) (data : Nat) :
    (s.stack_push data).pc = s.pc := rfl

@[simp] theorem Cpu.stack_push_u16_pc (s : Cpu) (data : Nat) :
    (s.stack_push_u16 data).pc = s.pc := rfl

@[simp] theorem Cpu.stack_pop_pc (s : Cpu) : s.stack_pop.1.pc = s.pc := rfl

@[simp] theorem Cpu.stack_pop_u16_pc (s : Cpu) :
    s.stack_pop_u16.1.pc = s.pc := rfl

@[simp] theorem Cpu.php_pc (s : Cpu) : s.php.pc = s.pc := rfl

@[simp] theorem Cpu.plp_pc (s : Cpu) : s.plp.pc = s.pc := rfl

set_option maxHeartbeats 3200000 in
/-- No recognized opcode other than the four control transfers
(JMP/JSR/RTS/RTI) writes `pc` during dispatch. -/
theorem Cpu.exec_opcode_pc (s : Cpu) (m : Nat) (mode : AddressingMode)
    (h1 : m ≠ 0x4c) (h2 : m ≠ 0x20) (h3 : m ≠ 0x60) (h4 : m ≠ 0x40) :
    (s.exec_opcode m mode).pc = s.pc := by
  unfold Cpu.exec_opcode
  split <;> first | (solve | simp) | simp_all

set_option maxHeartbeats 3200000 in
/-- Every instruction in the table declares a length between 1 and 3. -/
theorem instruction_len_bounds (op : Nat) (inst : Instruction)
    (h : INSTRUCTION_MAP op = some inst) : 1 ≤ inst.len ∧ inst.len ≤ 3 := by
  unfold INSTRUCTION_MAP at h
  split at h <;>
    first
    | (injection h; done)
    | (injection h with h5; subst h5; exact ⟨by decide, by decide⟩)

theorem Cpu.exec_jmp_pc (s : Cpu) (mode : AddressingMode) :
    (Cpu.exec_opcode s 0x4c mode).pc = Cpu.transfer_target s 0x4c := rfl

theorem Cpu.exec_jsr_pc (s : Cpu) (mode : AddressingMode) :
    (Cpu.exec_opcode s 0x20 mode).pc = Cpu.transfer_target s 0x20 := rfl

theorem Cpu.exec_rts_pc (s : Cpu) (mode : AddressingMode) :
    (Cpu.exec_opcode s 0x60 mode).pc = Cpu.transfer_target s 0x60 := rfl

theorem Cpu.exec_rti_pc (s : Cpu) (mode : AddressingMode) :
    (Cpu.exec_opcode s 0x40 mode).pc = Cpu.transfer_target s 0x40 := rfl

/-- Claim C6 (amended).  For every recognized non-BRK instruction, the
step loop leaves `pc` advanced past the instruction by exactly the
declared length, unless the opcode is one of the recognized control
transfers (JMP `0x4c`, JSR `0x20`, RTS `0x60`, RTI `0x40`), in which case
`pc` ends at the transfer target — except when the target equals the
address of the instruction's own first operand byte (opcode address + 1):
there the loop's `pc_to_operand == pc` test cannot tell that a transfer
happened, and `pc` ends at the target plus `len - 1`. -/
theorem c6_pc_advance_amended (s : Cpu) (inst : Instruction)
    (hrec : INSTRUCTION_MAP (s.mem_read s.pc) = some inst)
    (hbrk : s.mem_read s.pc ≠ 0x00) :
    s.step_pc = some (
      if s.mem_read s.pc = 0x4c ∨ s.mem_read s.pc = 0x20 ∨
          s.mem_read s.pc = 0x60 ∨ s.mem_read s.pc = 0x40 then
        (if (s.pc + 1) % 65536
            = Cpu.transfer_target { s with pc := (s.pc + 1) % 65536 }
                (s.mem_read s.pc) then
          (Cpu.transfer_target { s with pc := (s.pc + 1) % 65536 }
              (s.mem_read s.pc) + (inst.len - 1)) % 65536
        else
          Cpu.transfer_target { s with pc := (s.pc + 1) % 65536 }
            (s.mem_read s.pc))
      else (s.pc + inst.len) % 65536) := by
  have hlen := instruction_len_bounds _ _ hrec
  simp only [Cpu.step_pc, Cpu.step, hrec, hbrk, ite_false, ite_true,
    if_false, if_true, cpu_pc_ite]
  by_cases e1 : s.mem_read s.pc = 0x4c
  · rw [e1, Cpu.exec_jmp_pc]
    simp
  · by_cases e2 : s.mem_read s.pc = 0x20
    · rw [e2, Cpu.exec_jsr_pc]
      simp [e1]
    · by_cases e3 : s.mem_read s.pc = 0x60
      · rw [e3, Cpu.exec_rts_pc]
        simp [e1, e2]
      · by_cases e4 : s.mem_read s.pc = 0x40
        · rw [e4, Cpu.exec_rti_pc]
          simp [e1, e2, e3]
        · rw [Cpu.exec_opcode_pc _ _ _ e1 e2 e3 e4]
          simp [e1, e2, e3, e4]
          omega

/-- Claim C6, counterexample to the claim as stated: a JMP absolute at
`0x8000` whose target `0x8001` is its own operand address.  The JMP arm
overwrites `pc` with `0x8001`, but because that value equals
`pc_to_operand` the loop adds `len - 1 = 2`, so the step ends with
`pc = 0x8003`, not the transfer target `0x8001`. -/
theorem c6_jmp_adjacent_counterexample :
    c6_cpu.step_pc = some 0x8003 ∧
    Cpu.transfer_target { c6_cpu with pc := 0x8001 }
      (c6_cpu.mem_read c6_cpu.pc) = 0x8001 ∧
    (0x8003 : Nat) ≠ 0x8001 := by
  decide

/-- Witness for the amended C6 theorem: a TAX (length 1) at `0x8000`
advances `pc` to `0x8001`. -/
theorem c6_pc_advance_amended_witness :
    w6_cpu.step_pc = some 0x8001 := by
  rw [c6_pc_advance_amended w6_cpu ⟨1, 2, AddressingMode.Implied⟩ rfl
    (by decide)]
  decide

/-- Addresses in `[0x2000, 0x3fff]` masked with `0b10111111111111` split
into the `0x2000` base plus the low 12 bits. -/
theorem land_2fff (a : Nat) (h1 : 0x2000 ≤ a) (h2 : a < 0x4000) :
    a &&& 0x2fff = 0x2000 + a % 0x1000 := by
  apply Nat.eq_of_testBit_eq
  intro j
  have hR : (0x2000 + a % 0x1000 : Nat).testBit j
      = if j < 13 then (a % 2 ^ 12).testBit j else Nat.testBit 1 (j - 13) := by
    rw [show (0x2000 + a % 0x1000 : Nat) = 2 ^ 13 * 1 + a % 2 ^ 12 by
      norm_num]
    exact Nat.testBit_mul_pow_two_add 1
      (lt_trans (Nat.mod_lt a (by norm_num)) (by norm_num)) j
  rw [hR, Nat.testBit_and]
  rcases Nat.lt_or_ge j 13 with hj | hj
  · rcases Nat.lt_or_ge j 12 with hj2 | hj2
    · have hL : Nat.testBit 0x2fff j = true := by
        rw [show (0x2fff : Nat) = 2 ^ 13 + (2 ^ 12 - 1) by norm_num,
          Nat.testBit_two_pow_add_gt (by omega), Nat.testBit_two_pow_sub_one]
        simp [hj2]
      have hMod : (a % 2 ^ 12).testBit j = a.testBit j := by
        rw [Nat.testBit_mod_two_pow]
        simp [hj2]
      rw [hL, if_pos (by omega), hMod, Bool.and_true]
    · have hj12 : j = 12 := by omega
      subst hj12
      have hL : Nat.testBit 0x2fff 12 = false := by decide
      have hMod : (a % 2 ^ 12).testBit 12 = false :=
        Nat.testBit_lt_two_pow (Nat.mod_lt a (by norm_num))
      rw [hL, hMod, if_pos (by omega), Bool.and_false]
  · rcases Nat.eq_or_lt_of_le hj with hj13 | hj14
    · have hj13e : j = 13 := by omega
      subst hj13e
      have hL : Nat.testBit 0x2fff 13 = true := by decide
      have ha13 : a.testBit 13 = true := by
        rw [Nat.testBit_to_div_mod]
        have hd : a / 2 ^ 13 = 1 := by
          have hp : (2 : Nat) ^ 13 = 8192 := by norm_num
          rw [hp]
          omega
        rw [hd]
        decide
      rw [hL, ha13, if_neg (by omega)]
      decide
    · have hL : Nat.testBit 0x2fff j = false := by
        apply Nat.testBit_lt_two_pow
        calc (0x2fff : Nat) < 2 ^ 14 := by norm_num
          _ ≤ 2 ^ j := Nat.pow_le_pow_right (by norm_num) (by omega)
      have hR1 : Nat.testBit 1 (j - 13) = false := by
        apply Nat.testBit_lt_two_pow
        calc (1 : Nat) < 2 ^ 1 := by norm_num
          _ ≤ 2 ^ (j - 13) := Nat.pow_le_pow_right (by norm_num) (by omega)
      rw [hL, hR1, if_neg (by omega), Bool.and_false]

/-- Claim C10.  Under Vertical or Horizontal mirroring every address in
the nametable range `0x2000..=0x3eff` (the range `read_data` and
`write_to_data` pass to `mirror_vram_addr` is the subrange
`0x2000..=0x2fff`) maps to a VRAM index below `0x800`, so the 2048-byte
`vram` array accesses are in bounds; for FourScreen the quadrant-2/3
indices (name_table 2 or 3) are `0x800` or more. -/
theorem c10_mirror_vram_in_bounds (a : Nat) (h1 : 0x2000 ≤ a)
    (h2 : a ≤ 0x3eff) :
    Ppu.mirror_vram_addr .Vertical a < 0x800 ∧
    Ppu.mirror_vram_addr .Horizontal a < 0x800 ∧
    (((a &&& 0x2fff) - 0x2000) / 0x400 = 2 ∨
       ((a &&& 0x2fff) - 0x2000) / 0x400 = 3 →
     0x800 ≤ Ppu.mirror_vram_addr .FourScreen a) := by
  have hm : a &&& 0x2fff = 0x2000 + a % 0x1000 := land_2fff a h1 (by omega)
  have e1 : 0x2000 + a % 0x1000 - 0x2000 = a % 0x1000 := by omega
  delta Ppu.mirror_vram_addr
  simp only []
  rw [hm, e1]
  generalize hq : a % 0x1000 / 0x400 = q
  have hq4 : q < 4 := by omega
  interval_cases q
  · exact ⟨by show a % 0x1000 < 0x800; omega,
      by show a % 0x1000 < 0x800; omega,
      fun hc => by show 0x800 ≤ a % 0x1000; omega⟩
  · exact ⟨by show a % 0x1000 < 0x800; omega,
      by show a % 0x1000 - 0x400 < 0x800; omega,
      fun hc => by show 0x800 ≤ a % 0x1000; omega⟩
  · exact ⟨by show a % 0x1000 - 0x800 < 0x800; omega,
      by show a % 0x1000 - 0x400 < 0x800; omega,
      fun hc => by show 0x800 ≤ a % 0x1000; omega⟩
  · exact ⟨by show a % 0x1000 - 0x800 < 0x800; omega,
      by show a % 0x1000 - 0x800 < 0x800; omega,
      fun hc => by show 0x800 ≤ a % 0x1000; omega⟩

/-- Witness for C10 at the concrete address `0x2800` (name table 2). -/
theorem c10_mirror_vram_in_bounds_witness :
    Ppu.mirror_vram_addr .Vertical 0x2800 < 0x800 ∧
    Ppu.mirror_vram_addr .Horizontal 0x2800 < 0x800 ∧
    ((((0x2800 : Nat) &&& 0x2fff) - 0x2000) / 0x400 = 2 ∨
       (((0x2800 : Nat) &&& 0x2fff) - 0x2000) / 0x400 = 3 →
     0x800 ≤ Ppu.mirror_vram_addr .FourScreen 0x2800) :=
  c10_mirror_vram_in_bounds 0x2800 (by decide) (by decide)

/- Helper lemmas for the PPU claims (C7, C8). -/

theorem nat_and_and_zero (x a b : Nat) (h : a &&& b = 0) : (x &&& a) &&& b = 0 := by
  rw [Nat.and_assoc, h, Nat.and_zero]

theorem nat_and3_zero (x a b c : Nat) (h : a &&& (b &&& c) = 0) :
    ((x &&& a) &&& b) &&& c = 0 := by
  rw [Nat.and_assoc, Nat.and_assoc, h, Nat.and_zero]

theorem vblank_set_lt256 : ∀ x < 256, ((x ||| 128) &&& (255 ^^^ 64)) &&& 128 ≠ 0 := by
  decide

/-- One tick call preserves the clock invariants and advances the
"absolute dot" measure by exactly the delivered cycles, accounting one
whole frame (341 × 262 = 89342 dots) when the frame signal fires. -/
theorem Ppu.tick_measure (p : Ppu) (k : Nat) (hk : k ≤ 341)
    (hc : p.cycles < 341) (hs : p.scanline ≤ 261) :
    (p.tick k).1.cycles < 341 ∧ (p.tick k).1.scanline ≤ 261 ∧
    (p.tick k).1.scanline * 341 + (p.tick k).1.cycles
      + (if (p.tick k).2 then 89342 else 0)
      = p.scanline * 341 + p.cycles + k := by
  simp only [Ppu.tick]
  split_ifs <;> simp_all <;> omega

/-- Fold version of the measure invariant, with an arbitrary starting
frame count. -/
theorem Ppu.run_ticks_measure (cs : List Nat) (p : Ppu) (n : Nat)
    (hks : ∀ k ∈ cs, k ≤ 341) (hc : p.cycles < 341) (hs : p.scanline ≤ 261) :
    (cs.foldl
        (fun acc c =>
          ((acc.1.tick c).1, acc.2 + if (acc.1.tick c).2 then 1 else 0))
        (p, n)).1.cycles < 341 ∧
    (cs.foldl
        (fun acc c =>
          ((acc.1.tick c).1, acc.2 + if (acc.1.tick c).2 then 1 else 0))
        (p, n)).1.scanline ≤ 261 ∧
    (cs.foldl
        (fun acc c =>
          ((acc.1.tick c).1, acc.2 + if (acc.1.tick c).2 then 1 else 0))
        (p, n)).1.scanline * 341 +
      (cs.foldl
        (fun acc c =>
          ((acc.1.tick c).1, acc.2 + if (acc.1.tick c).2 then 1 else 0))
        (p, n)).1.cycles +
      89342 * (cs.foldl
        (fun acc c =>
          ((acc.1.tick c).1, acc.2 + if (acc.1.tick c).2 then 1 else 0))
        (p, n)).2
      = p.scanline * 341 + p.cycles + 89342 * n + cs.sum := by
  induction cs generalizing p n with
  | nil => simp_all
  | cons c cs ih =>
    have hkc : c ≤ 341 := hks c (by simp)
    have ht := Ppu.tick_measure p c hkc hc hs
    simp only [List.foldl_cons, List.sum_cons]
    cases hb : (p.tick c).2 with
    | false =>
      rw [show (n + if false = true then 1 else 0) = n from rfl]
      have hrest := ih ((p.tick c).1) n (fun x hx => hks x (by simp [hx]))
        ht.1 ht.2.1
      have h2 := ht.2.2
      rw [hb,
        show (if false = true then 89342 else 0) = 0 from rfl] at h2
      have h1 := hrest.2.2
      exact ⟨hrest.1, hrest.2.1, by omega⟩
    | true =>
      rw [show (n + if true = true then 1 else 0) = n + 1 from rfl]
      have hrest := ih ((p.tick c).1) (n + 1)
        (fun x hx => hks x (by simp [hx])) ht.1 ht.2.1
      have h2 := ht.2.2
      rw [hb,
        show (if true = true then 89342 else 0) = 89342 from rfl] at h2
      have h1 := hrest.2.2
      exact ⟨hrest.1, hrest.2.1, by omega⟩

/-- Setting vblank and then clearing sprite-zero hit leaves the vblank
bit readable. -/
theorem vblank_after_set (stat : StatusRegister) (hq : stat.bits < 256) :
    ((stat.set_vblank_status true).set_sprite_zero_hit false).is_in_vblank = true := by
  obtain ⟨b⟩ := stat
  simp only [StatusRegister.set_vblank_status, StatusRegister.set_sprite_zero_hit,
    flag_set_bits, StatusRegister.is_in_vblank, StatusRegister.VBLANK_STARTED,
    StatusRegister.SPRITE_ZERO_HIT, if_true, Bool.false_eq_true, if_false,
    ne_eq, decide_eq_true_eq]
  exact vblank_set_lt256 b hq

/-- The end-of-frame status update clears both the vblank and the
sprite-zero-hit bits. -/
theorem vblank_after_frame_clear (stat : StatusRegister) :
    (stat.set_sprite_zero_hit false).clear_vblank_status.is_in_vblank = false ∧
    (stat.set_sprite_zero_hit false).clear_vblank_status.bits &&&
      StatusRegister.SPRITE_ZERO_HIT = 0 := by
  obtain ⟨b⟩ := stat
  constructor
  · simp only [StatusRegister.set_sprite_zero_hit, StatusRegister.clear_vblank_status,
      flag_set_bits, StatusRegister.is_in_vblank, StatusRegister.VBLANK_STARTED,
      StatusRegister.SPRITE_ZERO_HIT, Bool.false_eq_true, if_false,
      ne_eq, decide_eq_false_iff_not, Decidable.not_not]
    exact nat_and3_zero b _ _ _ (by decide)
  · exact nat_and3_zero b _ _ _ (by decide)

/-- A tick crossing the boundary of scanline 240 enters scanline 241,
sets vblank, and raises the NMI flag when CTRL bit 7 is on. -/
theorem Ppu.tick_vblank_start (p : Ppu) (k : Nat) (hq : p.stat.bits < 256)
    (h240 : p.scanline = 240) (hk : 341 ≤ p.cycles + k) :
    (p.tick k).1.scanline = 241 ∧ (p.tick k).1.stat.is_in_vblank = true ∧
    (p.ctrl.generate_vbalnk_nmi = true → (p.tick k).1.nmi_interrupt = some 1) := by
  obtain ⟨mir, ctrl, addr, stat, scroll, sl, cy, nmi⟩ := p
  simp only [Ppu.tick] at *
  split_ifs with h1 h2 h3 h4 <;> simp_all <;>
    first
      | omega
      | exact vblank_after_set stat hq

/-- A tick crossing the boundary of scanline 261 wraps to scanline 0,
clears vblank and sprite-zero hit, drops the NMI flag and reports a
completed frame. -/
theorem Ppu.tick_frame_wrap (p : Ppu) (k : Nat) (h261 : p.scanline = 261)
    (hk : 341 ≤ p.cycles + k) :
    (p.tick k).1.scanline = 0 ∧ (p.tick k).1.stat.is_in_vblank = false ∧
    (p.tick k).1.stat.bits &&& StatusRegister.SPRITE_ZERO_HIT = 0 ∧
    (p.tick k).1.nmi_interrupt = none ∧ (p.tick k).2 = true := by
  obtain ⟨mir, ctrl, addr, stat, scroll, sl, cy, nmi⟩ := p
  simp only [Ppu.tick] at *
  split_ifs with h1 h2 h3 h4 <;> simp_all <;>
    first
      | omega
      | exact vblank_after_frame_clear stat

/-- Claim C7.  The claim states that from scanline 0 with an empty cycle
accumulator, tick calls totaling exactly 341 × 262 cycles (each call at
most 341 cycles, so at most one scanline boundary per call) produce
exactly one frame-complete signal; that the tick reaching scanline 241
sets vblank and raises `nmi_interrupt` when CTRL bit 7 is on; and that
the tick reaching scanline 262 wraps to 0, clears vblank and sprite-zero
hit, and returns the frame signal.  All three parts hold of the embedded
`Ppu.tick` / `Ppu.run_ticks`. -/
theorem c7_frame_timing :
    (∀ (p0 : Ppu) (cs : List Nat), p0.scanline = 0 → p0.cycles = 0 →
        (∀ k ∈ cs, k ≤ 341) → cs.sum = 341 * 262 → (p0.run_ticks cs).2 = 1)
    ∧ (∀ (p : Ppu) (k : Nat), p.stat.bits < 256 → p.scanline = 240 →
        341 ≤ p.cycles + k →
        (p.tick k).1.scanline = 241 ∧ (p.tick k).1.stat.is_in_vblank = true ∧
        (p.ctrl.generate_vbalnk_nmi = true →
          (p.tick k).1.nmi_interrupt = some 1))
    ∧ (∀ (p : Ppu) (k : Nat), p.scanline = 261 → 341 ≤ p.cycles + k →
        (p.tick k).1.scanline = 0 ∧ (p.tick k).1.stat.is_in_vblank = false ∧
        (p.tick k).1.stat.bits &&& StatusRegister.SPRITE_ZERO_HIT = 0 ∧
        (p.tick k).1.nmi_interrupt = none ∧ (p.tick k).2 = true) := by
  refine ⟨?_, Ppu.tick_vblank_start, Ppu.tick_frame_wrap⟩
  intro p0 cs h0 hc0 hks hsum
  obtain ⟨h1, h2, h3⟩ := Ppu.run_ticks_measure cs p0 0 hks (by omega) (by omega)
  simp only [Ppu.run_ticks]
  omega

/-- Witness for C7: a full frame of 262 ticks of 341 cycles from the
fresh PPU yields one frame signal; the concrete tick out of
(scanline 240, cycle 340) sets vblank and the NMI flag; the concrete
tick out of (scanline 261, cycle 340) reports the frame. -/
theorem c7_frame_timing_witness :
    ((Ppu.new Mirroring.Vertical).run_ticks (List.replicate 262 341)).2 = 1 ∧
    (c7_p241.tick 1).1.stat.is_in_vblank = true ∧
    (c7_p241.tick 1).1.nmi_interrupt = some 1 ∧
    (c7_p261.tick 1).2 = true := by
  refine ⟨c7_frame_timing.1 _ _ rfl rfl (by decide) (by decide),
    (c7_frame_timing.2.1 _ 1 (by decide) rfl (by decide)).2.1,
    (c7_frame_timing.2.1 _ 1 (by decide) rfl (by decide)).2.2 rfl,
    (c7_frame_timing.2.2 _ 1 rfl (by decide)).2.2.2.2⟩

/- Helper lemmas for C8 (AddrRegister round trip). -/

theorem shiftLeft_lor_eq_add (a b n : Nat) (hb : b < 2 ^ n) :
    (a <<< n) ||| b = 2 ^ n * a + b := by
  apply Nat.eq_of_testBit_eq
  intro j
  rw [Nat.testBit_mul_pow_two_add a hb j, Nat.testBit_or,
    Nat.testBit_shiftLeft]
  rcases Nat.lt_or_ge j n with h | h
  · have hn : ¬ n ≤ j := by omega
    simp [hn, h]
  · have hbf : b.testBit j = false :=
      Nat.testBit_lt_two_pow
        (lt_of_lt_of_le hb (Nat.pow_le_pow_right (by norm_num) h))
    have hj : ¬ j < n := by omega
    simp [h, hj, hbf]

theorem shiftLeft8_lor_eq_add (a b : Nat) (hb : b < 256) :
    (a <<< 8) ||| b = a * 256 + b := by
  have h256 : b < 2 ^ 8 := by norm_num; omega
  rw [shiftLeft_lor_eq_add a b 8 h256]
  ring

theorem and_3fff_eq_mod (x : Nat) : x &&& 0x3fff = x % 0x4000 :=
  calc x &&& 0x3fff = x &&& (2 ^ 14 - 1) := by norm_num
  _ = x % 2 ^ 14 := Nat.and_pow_two_sub_one_eq_mod x 14
  _ = x % 0x4000 := by norm_num

theorem and_ff_eq_mod (x : Nat) : x &&& 0xff = x % 0x100 :=
  calc x &&& 0xff = x &&& (2 ^ 8 - 1) := by norm_num
  _ = x % 2 ^ 8 := Nat.and_pow_two_sub_one_eq_mod x 8
  _ = x % 0x100 := by norm_num

theorem shiftRight8_eq_div (x : Nat) : x >>> 8 = x / 256 := by
  rw [Nat.shiftRight_eq_div_pow]

/-- One write through the latch in the high-byte position. -/
theorem AddrRegister.update_hi_char (shi slo data : Nat) (hlo : slo < 256) :
    (AddrRegister.mk shi slo true).update data =
      ⟨(data * 256 + slo) % 0x4000 / 256,
       (data * 256 + slo) % 0x4000 % 256, false⟩ := by
  simp only [AddrRegister.update, AddrRegister.set, AddrRegister.get,
    if_true]
  rw [shiftLeft8_lor_eq_add data slo hlo]
  split_ifs with hc
  · rw [and_3fff_eq_mod]
    rw [and_ff_eq_mod]
    rw [shiftRight8_eq_div]
    simp only [AddrRegister.mk.injEq]
    exact ⟨by omega, trivial, rfl⟩
  · simp only [AddrRegister.mk.injEq]
    refine ⟨by omega, by omega, rfl⟩

/-- One write through the latch in the low-byte position when the high
byte already fits in 6 bits (as after any masked high write). -/
theorem AddrRegister.update_lo_char (shi slo data : Nat) (hhi : shi < 64)
    (hd : data < 256) :
    (AddrRegister.mk shi slo false).update data = ⟨shi, data, true⟩ := by
  simp only [AddrRegister.update, AddrRegister.set, AddrRegister.get,
    Bool.false_eq_true, if_false]
  rw [shiftLeft8_lor_eq_add shi data hd]
  split_ifs with hc
  · exact absurd hc (by omega)
  · rfl

/-- Latch reset followed by a high write and a low write assembles the
14-bit-masked address, for any starting register with a byte-sized low
half. -/
theorem addr_roundtrip_core (r : AddrRegister) (h l : Nat)
    (hlo : r.lo < 256) (_hh : h < 256) (hl : l < 256) :
    ((r.reset_latch.update h).update l).get
      = ((h <<< 8) ||| l) &&& 0x3fff := by
  have h0 : r.reset_latch = AddrRegister.mk r.hi r.lo true := rfl
  rw [h0, AddrRegister.update_hi_char r.hi r.lo h hlo,
    AddrRegister.update_lo_char _ _ _ (by omega) hl,
    AddrRegister.get, shiftLeft8_lor_eq_add _ l hl,
    shiftLeft8_lor_eq_add h l hl, and_3fff_eq_mod]
  show (h * 256 + r.lo) % 0x4000 / 256 * 256 + l = (h * 256 + l) % 0x4000
  omega

/-- Claim C8.  The claim states that reading PPUSTATUS returns the
pre-read snapshot, clears the vblank bit and resets the shared write
latch, so that from any prior latch state a status read followed by
writes of bytes `h` then `l` to `0x2006` leaves the assembled VRAM
address equal to `((h <<< 8) ||| l) &&& 0x3fff`. -/
theorem c8_status_read_latch (p : Ppu) (h l : Nat) (hlo : p.addr.lo < 256)
    (hh : h < 256) (hl : l < 256) :
    (p.read_status).2 = p.stat.snapshot ∧
    (p.read_status).1.stat.bits &&& StatusRegister.VBLANK_STARTED = 0 ∧
    (p.read_status).1.addr.hi_ptr = true ∧
    (((p.read_status).1.write_to_ppu_addr h).write_to_ppu_addr l).addr.get
      = ((h <<< 8) ||| l) &&& 0x3fff := by
  refine ⟨rfl, ?_, rfl, ?_⟩
  · exact nat_and_and_zero p.stat.bits _ _ (by decide)
  · exact addr_roundtrip_core p.addr h l hlo hh hl

/-- Witness for C8: from a half-written address register with both
status bits set, a status read returns `0xc0`, clears vblank, resets the
latch, and the next two writes `0x23`, `0x05` leave address `0x2305`. -/
theorem c8_status_read_latch_witness :
    (c8_ppu.read_status).2 = c8_ppu.stat.snapshot ∧
    (c8_ppu.read_status).1.stat.bits &&& StatusRegister.VBLANK_STARTED = 0 ∧
    (c8_ppu.read_status).1.addr.hi_ptr = true ∧
    (((c8_ppu.read_status).1.write_to_ppu_addr 0x23).write_to_ppu_addr
        0x05).addr.get = ((0x23 <<< 8) ||| 0x05) &&& 0x3fff :=
  c8_status_read_latch c8_ppu 0x23 0x05 (by decide) (by decide) (by decide)
